import Mathlib

/-!
Shallow embedding of the focus club-management backend
(src/backend/api/models.py, permissions.py, filters.py, exceptions.py and
src/api/views.py).  Database tables are lists of rows, primary keys are
drawn from a fresh-id counter, and the wall clock is a field of the
database state.  Operations that Django runs inside a transaction and that
can raise are embedded as functions into `Except ApiError DB`: an `error`
result means the transaction rolled back and no state change is observable.
-/

namespace Focus

/-- Privilege choices of ClubRole (constants.PRIVILEGE_REP / PRIVILEGE_MEM). -/
inductive Privilege where
  | rep
  | mem
deriving DecidableEq, Repr

/-- Status choices of ClubMembershipRequest (constants.REQUEST_STATUS_*). -/
inductive RequestStatus where
  | pending
  | accepted
  | rejected
  | cancelled
deriving DecidableEq, Repr

/-- Display name of a privilege, from constants.DISPLAY_NAME. -/
def privilegeDisplay : Privilege → String
  | .rep => "Representative"
  | .mem => "Member"

/-- Display name of a request status, from constants.DISPLAY_NAME
(what get_status_display returns on the model instance). -/
def statusDisplay : RequestStatus → String
  | .pending => "Pending"
  | .accepted => "Accepted"
  | .rejected => "Rejected"
  | .cancelled => "Cancelled"

/-- User row.  In src/backend/api/models.py, User.is_secretary() returns
the is_superuser flag of the underlying auth user. -/
structure User where
  id : Nat
  is_superuser : Bool
deriving DecidableEq, Repr

/-- Embeds User.is_secretary from src/backend/api/models.py. -/
def User.is_secretary (u : User) : Bool := u.is_superuser

/-- Club row (name, description). -/
structure Club where
  id : Nat
  name : String
  description : String
deriving DecidableEq, Repr

/-- ClubRole row: a role of a single club with a privilege. -/
structure ClubRole where
  id : Nat
  name : String
  description : String
  club : Nat
  privilege : Privilege
deriving DecidableEq, Repr

/-- ClubMembership row: joins a User to a ClubRole. -/
structure ClubMembership where
  id : Nat
  user : Nat
  club_role : Nat
  joined : Nat
deriving DecidableEq, Repr

/-- ClubMembershipRequest row. -/
structure ClubMembershipRequest where
  id : Nat
  user : Nat
  club : Nat
  initiated : Nat
  status : RequestStatus
  closed : Option Nat
deriving DecidableEq, Repr

/-- Channel row: one-to-one with a Club. -/
structure Channel where
  id : Nat
  name : String
  description : String
  club : Nat
deriving DecidableEq, Repr

/-- ChannelSubscription row: joins a User to a Channel. -/
structure ChannelSubscription where
  id : Nat
  user : Nat
  channel : Nat
  joined : Nat
deriving DecidableEq, Repr

/-- FeedbackReply row: one-to-one back reference (parent) to a Feedback. -/
structure FeedbackReply where
  id : Nat
  content : String
  created : Nat
  parent : Nat
deriving DecidableEq, Repr

/-- Database state: one list per table used by the verified operations,
a fresh primary-key counter and the current time. -/
structure DB where
  clubs : List Club
  club_roles : List ClubRole
  club_memberships : List ClubMembership
  requests : List ClubMembershipRequest
  channels : List Channel
  subscriptions : List ChannelSubscription
  feedback_replies : List FeedbackReply
  next_id : Nat
  now : Nat
deriving DecidableEq, Repr

/-- Errors surfaced by the embedded operations, matching the exception
taxonomy of the source (rest_framework exceptions plus the custom
ActionNotAvailable of src/backend/api/exceptions.py, which stores the
action passed to its constructor and the detail message). -/
inductive ApiError where
  | actionNotAvailable (action : String) (detail : String)
  | validationError (detail : String)
  | permissionDenied
  | parseError
  | multipleObjectsReturned
  | doesNotExist
deriving DecidableEq, Repr

/-- Resolve a Club foreign key to its row. -/
def DB.find_club (db : DB) (clubId : Nat) : Option Club :=
  db.clubs.find? (fun c => c.id == clubId)

/-- Resolve a ClubRole foreign key to its row. -/
def DB.find_club_role (db : DB) (roleId : Nat) : Option ClubRole :=
  db.club_roles.find? (fun r => r.id == roleId)

/-- Embeds Club.has_member: a ClubMembership exists joining the user to
some ClubRole of this club. -/
def Club.has_member (c : Club) (db : DB) (userId : Nat) : Bool :=
  db.club_memberships.any fun m =>
    m.user == userId &&
      db.club_roles.any (fun r => r.id == m.club_role && r.club == c.id)

/-- Embeds Club.has_rep: a ClubMembership exists joining the user to a
ClubRole of this club whose privilege is REP. -/
def Club.has_rep (c : Club) (db : DB) (userId : Nat) : Bool :=
  db.club_memberships.any fun m =>
    m.user == userId &&
      db.club_roles.any (fun r =>
        r.id == m.club_role && r.club == c.id && r.privilege == Privilege.rep)

/-- Embeds Club.has_role: the given role belongs to this club. -/
def Club.has_role (c : Club) (role : ClubRole) : Bool :=
  role.club == c.id

/-- Embeds Club.has_pending_request: a PENDING ClubMembershipRequest by
the user for this club exists. -/
def Club.has_pending_request (c : Club) (db : DB) (userId : Nat) : Bool :=
  db.requests.any fun r =>
    r.user == userId && r.club == c.id && r.status == RequestStatus.pending

/-- Embeds the create branch of Club.save: a new Club and its default
Channel are created inside one transaction.  Returns the new club row and
the updated database. -/
def createClub (db : DB) (name description : String) : Club × DB :=
  let club : Club := ⟨db.next_id, name, description⟩
  let channel : Channel :=
    ⟨db.next_id + 1, name ++ " Channel", "Default channel for " ++ name,
      club.id⟩
  (club,
    { db with
      clubs := db.clubs ++ [club]
      channels := db.channels ++ [channel]
      next_id := db.next_id + 2 })

/-- Rows of club_roles matching all four keyword arguments that
Club.add_member passes to ClubRole.objects.get_or_create. -/
def roleMatches (db : DB) (name description : String) (clubId : Nat)
    (priv : Privilege) : List ClubRole :=
  db.club_roles.filter fun r =>
    r.name == name && r.description == description && r.club == clubId &&
      r.privilege == priv

/-- Embeds ClubRole.objects.get_or_create as called by Club.add_member:
get by (name, description, club, privilege); create when absent; raise
MultipleObjectsReturned when more than one row matches. -/
def getOrCreateClubRole (db : DB) (name description : String) (clubId : Nat)
    (priv : Privilege) : Except ApiError (ClubRole × DB) :=
  match roleMatches db name description clubId priv with
  | [] =>
      let r : ClubRole := ⟨db.next_id, name, description, clubId, priv⟩
      .ok (r, { db with
                  club_roles := db.club_roles ++ [r]
                  next_id := db.next_id + 1 })
  | [r] => .ok (r, db)
  | _ => .error ApiError.multipleObjectsReturned

/-- Rows of club_memberships matching the keyword arguments that
Club.add_member passes to ClubMembership.objects.get_or_create. -/
def membershipMatches (db : DB) (roleId userId : Nat) : List ClubMembership :=
  db.club_memberships.filter fun m =>
    m.club_role == roleId && m.user == userId

/-- Embeds ClubMembership.objects.get_or_create as called by
Club.add_member: get by (club_role, user); create when absent; raise
MultipleObjectsReturned when more than one row matches. -/
def getOrCreateMembership (db : DB) (roleId userId : Nat) :
    Except ApiError (ClubMembership × DB) :=
  match membershipMatches db roleId userId with
  | [] =>
      let m : ClubMembership := ⟨db.next_id, userId, roleId, db.now⟩
      .ok (m, { db with
                  club_memberships := db.club_memberships ++ [m]
                  next_id := db.next_id + 1 })
  | [m] => .ok (m, db)
  | _ => .error ApiError.multipleObjectsReturned

/-- Embeds Club.add_member: get-or-create the ClubRole named by the
display name of the privilege with the generated description, then
get-or-create the ClubMembership joining the user to it. -/
def Club.add_member (c : Club) (db : DB) (userId : Nat)
    (priv : Privilege := Privilege.mem) : Except ApiError DB := do
  let (role, db1) ← getOrCreateClubRole db (privilegeDisplay priv)
    (privilegeDisplay priv ++ " of " ++ c.name) c.id priv
  let (_, db2) ← getOrCreateMembership db1 role.id userId
  pure db2

/-- Modelled from the spec for a refinement comparison with
Club.add_member: the variant in which the ClubRole get-or-create is keyed
on (club, privilege) only, the name and description being used only when a
new role is created. -/
def Club.add_member_spec (c : Club) (db : DB) (userId : Nat)
    (priv : Privilege := Privilege.mem) : Except ApiError DB := do
  let (role, db1) ←
    (match db.club_roles.filter
        (fun r => r.club == c.id && r.privilege == priv) with
     | [] =>
        let r : ClubRole := ⟨db.next_id, privilegeDisplay priv,
          privilegeDisplay priv ++ " of " ++ c.name, c.id, priv⟩
        Except.ok (r, { db with
                          club_roles := db.club_roles ++ [r]
                          next_id := db.next_id + 1 })
     | [r] => Except.ok (r, db)
     | _ => Except.error ApiError.multipleObjectsReturned)
  let (_, db2) ← getOrCreateMembership db1 role.id userId
  pure db2

/-- Embeds Model.save on a ClubMembershipRequest instance: update the row
with the same primary key, inserting the row when none exists. -/
def DB.save_request (db : DB) (r : ClubMembershipRequest) : DB :=
  if db.requests.any (fun x => x.id == r.id) then
    { db with requests := db.requests.map fun x => if x.id == r.id then r else x }
  else
    { db with requests := db.requests ++ [r] }

/-- Embeds Model.save on a ClubMembership instance: update the row with
the same primary key, inserting the row when none exists. -/
def DB.save_membership (db : DB) (m : ClubMembership) : DB :=
  if db.club_memberships.any (fun x => x.id == m.id) then
    { db with club_memberships :=
        db.club_memberships.map fun x => if x.id == m.id then m else x }
  else
    { db with club_memberships := db.club_memberships ++ [m] }

/-- Embeds ClubMembershipRequest.is_pending. -/
def ClubMembershipRequest.is_pending (r : ClubMembershipRequest) : Bool :=
  r.status == RequestStatus.pending

/-- Embeds ClubMembershipRequest.accept: raise ActionNotAvailable when not
pending, otherwise set status ACCEPTED and closed now, add the requester
as a member of the club, and save — all in one transaction. -/
def ClubMembershipRequest.accept (r : ClubMembershipRequest) (db : DB) :
    Except ApiError DB :=
  if !r.is_pending then
    .error (ApiError.actionNotAvailable "accept"
      ("The request is already marked as " ++ statusDisplay r.status ++
        ". Can not be accepted!"))
  else
    match db.find_club r.club with
    | none => .error ApiError.doesNotExist
    | some club => do
        let r2 := { r with status := RequestStatus.accepted
                           closed := some db.now }
        let db2 ← club.add_member db r.user
        pure (db2.save_request r2)

/-- Variant of ClubMembershipRequest.accept that calls
Club.add_member_spec instead of Club.add_member, used only to compare the
source keying of the role get-or-create with the keying the spec words
describe. -/
def ClubMembershipRequest.accept_spec (r : ClubMembershipRequest) (db : DB) :
    Except ApiError DB :=
  if !r.is_pending then
    .error (ApiError.actionNotAvailable "accept"
      ("The request is already marked as " ++ statusDisplay r.status ++
        ". Can not be accepted!"))
  else
    match db.find_club r.club with
    | none => .error ApiError.doesNotExist
    | some club => do
        let r2 := { r with status := RequestStatus.accepted
                           closed := some db.now }
        let db2 ← club.add_member_spec db r.user
        pure (db2.save_request r2)

/-- Embeds ClubMembershipRequest.reject. -/
def ClubMembershipRequest.reject (r : ClubMembershipRequest) (db : DB) :
    Except ApiError DB :=
  if !r.is_pending then
    .error (ApiError.actionNotAvailable "reject"
      ("The request is already marked as " ++ statusDisplay r.status ++
        ". Can not be rejected!"))
  else
    .ok (db.save_request { r with status := RequestStatus.rejected
                                  closed := some db.now })

/-- Embeds ClubMembershipRequest.cancel. -/
def ClubMembershipRequest.cancel (r : ClubMembershipRequest) (db : DB) :
    Except ApiError DB :=
  if !r.is_pending then
    .error (ApiError.actionNotAvailable "cancel"
      ("The request is already marked as " ++ statusDisplay r.status ++
        ". Can not be cancelled!"))
  else
    .ok (db.save_request { r with status := RequestStatus.cancelled
                                  closed := some db.now })

/-- HTTP methods a request can carry, as dispatched on by the permission
classes. -/
inductive Method where
  | GET
  | HEAD
  | OPTIONS
  | POST
  | PUT
  | PATCH
  | DELETE
deriving DecidableEq, Repr

/-- Membership of a method in rest_framework SAFE_METHODS
(GET, HEAD, OPTIONS). -/
def Method.is_safe : Method → Bool
  | .GET => true
  | .HEAD => true
  | .OPTIONS => true
  | _ => false

/-- Embeds ClubPermission.has_object_permission: everyone may read, only a
secretary may delete, only a secretary or a club representative may
perform any other write. -/
def ClubPermission.has_object_permission (db : DB) (u : User) (method : Method)
    (club : Club) : Bool :=
  if method.is_safe then true
  else if method == Method.DELETE then u.is_secretary
  else u.is_secretary || club.has_rep db u.id

/-- Embeds ClubMembershipRequestViewSet.create composed with
perform_create (src/api/views.py): reject when the requester is already a
member or already has a pending request for the club, otherwise insert a
new request by the current user with default status PENDING, closed null
and initiated set by auto_now_add. -/
def createMembershipRequest (db : DB) (u : User) (club : Club) :
    Except ApiError DB :=
  if club.has_member db u.id then
    .error (ApiError.actionNotAvailable "create" "You are already a member!")
  else if club.has_pending_request db u.id then
    .error (ApiError.actionNotAvailable "create"
      "You already have a pending request for this club!")
  else
    .ok { db with
            requests := db.requests ++
              [⟨db.next_id, u.id, club.id, db.now, RequestStatus.pending,
                none⟩]
            next_id := db.next_id + 1 }

/-- Decides whether the decimal digits of needle occur as a contiguous
substring of the decimal digits of hay: the semantics of the Django
id__contains lookup (SQL LIKE) that the filters apply to integer
primary keys. -/
def natContains (hay needle : Nat) : Bool :=
  containsAux (Nat.repr needle).toList (Nat.repr hay).toList
where
  /-- Runs along the hay characters testing the needle at each offset. -/
  containsAux (pat : List Char) : List Char → Bool
    | [] => pat.isEmpty
    | c :: rest => pat.isPrefixOf (c :: rest) || containsAux pat rest

/-- Clubs having a REP-privilege role one of whose members has an id
matching the id of the user under the id__contains lookup: the club_list
query of ClubMembershipRequestFilter.filter_queryset
(roles__privilege=REP, roles__members__id__contains=user.id requires a
single role row to satisfy both conditions). -/
def repClubList (db : DB) (userId : Nat) : List Club :=
  db.clubs.filter fun c =>
    db.club_roles.any fun r =>
      r.club == c.id && r.privilege == Privilege.rep &&
        db.club_memberships.any (fun m =>
          m.club_role == r.id && natContains m.user userId)

/-- Embeds queryset.order_by on the initiated column: stable sort,
descending when desc is true. -/
def orderByInitiated (desc : Bool) (l : List ClubMembershipRequest) :
    List ClubMembershipRequest :=
  if desc then l.mergeSort (fun a b => b.initiated ≤ a.initiated)
  else l.mergeSort (fun a b => a.initiated ≤ b.initiated)

/-- Embeds ClubMembershipRequestFilter.filter_queryset
(src/backend/api/filters.py) after query-parameter decoding: restrict to
requests for a club in the rep club_list or made by the user, then apply
the pending, club_id and only_my narrowing, then order by initiated. -/
def ClubMembershipRequestFilter.filter_queryset (db : DB) (u : User)
    (queryset : List ClubMembershipRequest)
    (club_id order pending only_my : Int) : List ClubMembershipRequest :=
  let club_list := repClubList db u.id
  let qs1 := queryset.filter fun r =>
    club_list.any (fun c => c.id == r.club) || r.user == u.id
  let qs2 :=
    if pending != -1 then
      if pending != 0 then
        qs1.filter fun r => r.status == RequestStatus.pending
      else
        qs1.filter fun r => !(r.status == RequestStatus.pending)
    else qs1
  let qs3 :=
    if club_id != -1 then qs2.filter (fun r => (r.club : Int) == club_id)
    else qs2
  let qs4 :=
    if only_my != 0 then qs3.filter (fun r => r.user == u.id) else qs3
  orderByInitiated (order == -1) qs4

/-- Embeds Channel.has_subscriber. -/
def Channel.has_subscriber (ch : Channel) (db : DB) (userId : Nat) : Bool :=
  db.subscriptions.any fun s => s.user == userId && s.channel == ch.id

/-- Rows of subscriptions matching the keyword arguments passed to
ChannelSubscription.objects.get_or_create and .filter by Channel.subscribe
and Channel.unsubscribe. -/
def subscriptionMatches (db : DB) (userId chId : Nat) :
    List ChannelSubscription :=
  db.subscriptions.filter fun s => s.user == userId && s.channel == chId

/-- Embeds Channel.subscribe: get_or_create the ChannelSubscription keyed
on (user, channel). -/
def Channel.subscribe (ch : Channel) (db : DB) (userId : Nat) :
    Except ApiError DB :=
  match subscriptionMatches db userId ch.id with
  | [] =>
      .ok { db with
              subscriptions := db.subscriptions ++
                [⟨db.next_id, userId, ch.id, db.now⟩]
              next_id := db.next_id + 1 }
  | [_] => .ok db
  | _ => .error ApiError.multipleObjectsReturned

/-- Embeds Channel.unsubscribe: delete every ChannelSubscription row for
(user, channel); safe when none exists. -/
def Channel.unsubscribe (ch : Channel) (db : DB) (userId : Nat) : DB :=
  { db with
      subscriptions := db.subscriptions.filter fun s =>
        !(s.user == userId && s.channel == ch.id) }

/-- Embeds Feedback.is_replied for a feedback identified by its primary
key: a FeedbackReply row with this parent exists. -/
def feedbackIsReplied (db : DB) (feedbackId : Nat) : Bool :=
  db.feedback_replies.any fun fr => fr.parent == feedbackId

/-- Embeds creation of a FeedbackReply: the parent column is a
OneToOneField, so the unique constraint (enforced by the serializer
validation before insertion and by the store) rejects a second reply for
the same Feedback; otherwise the row is inserted. -/
def createFeedbackReply (db : DB) (content : String) (parentId : Nat) :
    Except ApiError DB :=
  if feedbackIsReplied db parentId then
    .error (ApiError.validationError "This field must be unique.")
  else
    .ok { db with
            feedback_replies := db.feedback_replies ++
              [⟨db.next_id, content, db.now, parentId⟩]
            next_id := db.next_id + 1 }

/-- Embeds ClubMembershipViewSet.update (src/api/views.py) applied to an
existing membership with a validated payload carrying a user and a
club_role: reject when the payload names a different user, reject when
the payload role does not belong to the club of the current role of the
membership, otherwise save the updated row. -/
def ClubMembershipViewSet.update (db : DB) (m : ClubMembership)
    (payload_user : Nat) (payload_role : ClubRole) : Except ApiError DB :=
  if !(m.user == payload_user) then
    .error (ApiError.validationError "You can not update the User!")
  else
    match db.find_club_role m.club_role with
    | none => .error ApiError.doesNotExist
    | some role =>
        match db.find_club role.club with
        | none => .error ApiError.doesNotExist
        | some club =>
            if !(club.has_role payload_role) then
              .error (ApiError.validationError
                "Invalid Club Role ID for this Club!")
            else
              .ok (db.save_membership
                { m with user := payload_user
                         club_role := payload_role.id })

/-- Fixture database for the C2 witness. -/
def wdb2 : DB := ⟨[], [], [], [], [], [], [], 0, 0⟩

/-- Fixture request, already accepted, for the C2 witness. -/
def wreq2 : ClubMembershipRequest :=
  ⟨1, 2, 3, 0, RequestStatus.accepted, some 4⟩

/-- Fixture database for the C4 witness: user 20 is representative of
club 1 through role 2. -/
def wdb4 : DB :=
  ⟨[⟨1, "C", "d"⟩], [⟨2, "Rep", "r", 1, Privilege.rep⟩], [⟨3, 20, 2, 0⟩],
    [], [], [], [], 4, 0⟩

/-- Fixture database for the C5 witness: one club, no members, no
requests. -/
def wdb5 : DB := ⟨[⟨1, "C", "d"⟩], [], [], [], [], [], [], 2, 7⟩

/-- Fixture database for the C10 witness: membership 3 joins user 20 to
role 2 of club 1. -/
def wdb10 : DB :=
  ⟨[⟨1, "C", "d"⟩], [⟨2, "Rep", "r", 1, Privilege.rep⟩], [⟨3, 20, 2, 0⟩],
    [], [], [], [], 4, 0⟩

/-- Fixture database for the C1 witness: club 1 and a pending request by
user 7 for it. -/
def wdb1 : DB :=
  ⟨[⟨1, "C", "d"⟩], [], [], [⟨2, 7, 1, 0, RequestStatus.pending, none⟩],
    [], [], [], 3, 9⟩

/-- Fixture request for the C1 witness. -/
def wreq1 : ClubMembershipRequest := ⟨2, 7, 1, 0, RequestStatus.pending, none⟩

/-- Fixture database for the C1 counterexample: club 1 already has a
MEMBER-privilege role whose name is not the display name of the
privilege, and user 10 has a pending request. -/
def xdb1 : DB :=
  ⟨[⟨1, "C", "d"⟩], [⟨2, "Custom", "x", 1, Privilege.mem⟩], [],
    [⟨3, 10, 1, 0, RequestStatus.pending, none⟩], [], [], [], 4, 5⟩

/-- Fixture request for the C1 counterexample. -/
def xreq1 : ClubMembershipRequest := ⟨3, 10, 1, 0, RequestStatus.pending, none⟩

/-- Fixture database for C9: club 1 already has the standard Member role
(id 2) and membership 3 joins user 7 to it. -/
def wdb9 : DB :=
  ⟨[⟨1, "C", "d"⟩], [⟨2, "Member", "Member of C", 1, Privilege.mem⟩],
    [⟨3, 7, 2, 0⟩], [], [], [], [], 4, 0⟩

/-- Invariant of the one-to-one parent reference: at most one
FeedbackReply row per Feedback. -/
def atMostOneReply (db : DB) : Prop :=
  ∀ p : Nat,
    (db.feedback_replies.filter fun fr => fr.parent == p).length ≤ 1

/-- Fixture database for the C7 witness: feedback 9 already has a
reply. -/
def wdb7 : DB := ⟨[], [], [], [], [], [], [⟨1, "t", 0, 9⟩], 2, 3⟩

/-- Fixture channel for the C8 witness. -/
def wch8 : Channel := ⟨1, "C Channel", "dc", 2⟩

/-- Fixture database for the C8 witness: no subscriptions yet. -/
def wdb8 : DB := ⟨[], [], [], [], [⟨1, "C Channel", "dc", 2⟩], [], [], 3, 0⟩

/-- Fixture database for C6: user 11 is representative of club 5 through
role 6, and user 2 has a pending request (id 8) for club 5.  The caller
of the listing is user 1, who made no request and represents no club. -/
def wdb6 : DB :=
  ⟨[⟨5, "B", "d"⟩], [⟨6, "Rep", "r", 5, Privilege.rep⟩], [⟨7, 11, 6, 0⟩],
    [⟨8, 2, 5, 3, RequestStatus.pending, none⟩], [], [], [], 9, 10⟩

/-!
Theorems.  Operations that Django wraps in a transaction are embedded in
`Except ApiError DB`, so an `error` result already expresses that the
database (and hence the model instance) is left unchanged and that no row
was created.
-/

/-- C2: on a request whose status is not PENDING, each of accept, reject
and cancel raises ActionNotAvailable carrying the attempted action name
and the display name of the current status, and no state change escapes
(the error result carries no database). -/
theorem C2_terminal_transitions (db : DB) (r : ClubMembershipRequest)
    (h : r.status ≠ RequestStatus.pending) :
    r.accept db = .error (ApiError.actionNotAvailable "accept"
      ("The request is already marked as " ++ statusDisplay r.status ++
        ". Can not be accepted!")) ∧
    r.reject db = .error (ApiError.actionNotAvailable "reject"
      ("The request is already marked as " ++ statusDisplay r.status ++
        ". Can not be rejected!")) ∧
    r.cancel db = .error (ApiError.actionNotAvailable "cancel"
      ("The request is already marked as " ++ statusDisplay r.status ++
        ". Can not be cancelled!")) := by
  have hb : r.is_pending = false := by
    simp [ClubMembershipRequest.is_pending, beq_iff_eq, h]
  refine ⟨?_, ?_, ?_⟩ <;>
    simp [ClubMembershipRequest.accept, ClubMembershipRequest.reject,
      ClubMembershipRequest.cancel, hb]

/-- Witness for C2 at a concrete accepted request. -/
theorem C2_terminal_transitions_witness :
    wreq2.accept wdb2 = .error (ApiError.actionNotAvailable "accept"
      ("The request is already marked as " ++
        statusDisplay RequestStatus.accepted ++ ". Can not be accepted!")) ∧
    wreq2.reject wdb2 = .error (ApiError.actionNotAvailable "reject"
      ("The request is already marked as " ++
        statusDisplay RequestStatus.accepted ++ ". Can not be rejected!")) ∧
    wreq2.cancel wdb2 = .error (ApiError.actionNotAvailable "cancel"
      ("The request is already marked as " ++
        statusDisplay RequestStatus.accepted ++ ". Can not be cancelled!")) :=
  C2_terminal_transitions wdb2 wreq2 (by decide)

/-- C3: creating a Club also creates exactly one Channel pointing at it,
in the same atomic step, and disturbs the channels of no other club.  The
hypothesis states that the fresh primary key is not already referenced. -/
theorem C3_club_creates_channel (db : DB) (n d : String)
    (hfresh : ∀ ch ∈ db.channels, ch.club ≠ db.next_id) :
    ((createClub db n d).2.channels.filter
        (fun ch => ch.club == (createClub db n d).1.id)).length = 1 ∧
    (createClub db n d).1 ∈ (createClub db n d).2.clubs ∧
    ∀ cid : Nat, cid ≠ (createClub db n d).1.id →
      (createClub db n d).2.channels.filter (fun ch => ch.club == cid) =
        db.channels.filter (fun ch => ch.club == cid) := by
  refine ⟨?_, ?_, ?_⟩
  · simp only [createClub]
    rw [List.filter_append]
    have h1 : db.channels.filter (fun ch => ch.club == db.next_id) = [] :=
      List.filter_eq_nil_iff.mpr (fun ch hch => by simp [hfresh ch hch])
    simp [h1]
  · simp [createClub]
  · intro cid hcid
    have hcid2 : db.next_id ≠ cid := by
      simp only [createClub] at hcid
      exact Ne.symm hcid
    simp only [createClub]
    rw [List.filter_append]
    have h2 : (fun ch => ch.club == cid)
        (⟨db.next_id + 1, n ++ " Channel", "Default channel for " ++ n,
          db.next_id⟩ : Channel) = false := by
      simp [hcid2]
    simp [h2]

/-- Witness for C3 on an empty database. -/
theorem C3_club_creates_channel_witness :
    ((createClub wdb2 "Chess" "c").2.channels.filter
        (fun ch => ch.club == (createClub wdb2 "Chess" "c").1.id)).length
      = 1 ∧
    (createClub wdb2 "Chess" "c").1 ∈ (createClub wdb2 "Chess" "c").2.clubs ∧
    ∀ cid : Nat, cid ≠ (createClub wdb2 "Chess" "c").1.id →
      (createClub wdb2 "Chess" "c").2.channels.filter
          (fun ch => ch.club == cid) =
        wdb2.channels.filter (fun ch => ch.club == cid) :=
  C3_club_creates_channel wdb2 "Chess" "c" (by simp [wdb2])

/-- C4: on a Club object everyone may read, a secretary may delete, a
user who is neither secretary nor representative may neither delete nor
write, and a representative may update. -/
theorem C4_club_authorize (db : DB) (u v : User) (club : Club)
    (husec : u.is_secretary = false)
    (hurep : club.has_rep db u.id = false)
    (hvsec : v.is_secretary = true) :
    (∀ (w : User) (m : Method), m.is_safe = true →
      ClubPermission.has_object_permission db w m club = true) ∧
    ClubPermission.has_object_permission db v Method.DELETE club = true ∧
    ClubPermission.has_object_permission db u Method.DELETE club = false ∧
    ClubPermission.has_object_permission db u Method.PUT club = false ∧
    ClubPermission.has_object_permission db u Method.PATCH club = false ∧
    ClubPermission.has_object_permission db u Method.POST club = false ∧
    ∀ w : User, club.has_rep db w.id = true →
      ClubPermission.has_object_permission db w Method.PUT club = true := by
  refine ⟨fun w m hm => ?_, ?_, ?_, ?_, ?_, ?_, fun w hw => ?_⟩
  · cases m <;>
      simp_all [ClubPermission.has_object_permission, Method.is_safe]
  all_goals
    simp_all [ClubPermission.has_object_permission, Method.is_safe]

/-- Witness for C4: user 10 is neither secretary nor representative of
club 1 in wdb4 and may not delete it. -/
theorem C4_club_authorize_witness :
    ClubPermission.has_object_permission wdb4 ⟨10, false⟩ Method.DELETE
      ⟨1, "C", "d"⟩ = false :=
  (C4_club_authorize wdb4 ⟨10, false⟩ ⟨11, true⟩ ⟨1, "C", "d"⟩
    (by decide) (by decide) (by decide)).2.2.1

/-- C5: creating a membership request succeeds, with a fresh PENDING
request whose closed field is null, exactly when the requester is neither
a member nor the holder of a pending request for the club; otherwise it
fails with the corresponding domain error and no request row is added. -/
theorem C5_create_request_guards (db : DB) (u : User) (club : Club) :
    (club.has_member db u.id = true →
      createMembershipRequest db u club =
        .error (ApiError.actionNotAvailable "create"
          "You are already a member!")) ∧
    (club.has_member db u.id = false →
      club.has_pending_request db u.id = true →
      createMembershipRequest db u club =
        .error (ApiError.actionNotAvailable "create"
          "You already have a pending request for this club!")) ∧
    (club.has_member db u.id = false →
      club.has_pending_request db u.id = false →
      ∃ req, createMembershipRequest db u club =
          .ok { db with requests := db.requests ++ [req]
                        next_id := db.next_id + 1 } ∧
        req.status = RequestStatus.pending ∧ req.closed = none ∧
        req.user = u.id ∧ req.club = club.id ∧ req.initiated = db.now) := by
  refine ⟨fun h1 => ?_, fun h1 h2 => ?_, fun h1 h2 => ?_⟩
  · simp [createMembershipRequest, h1]
  · simp [createMembershipRequest, h1, h2]
  · refine ⟨⟨db.next_id, u.id, club.id, db.now, RequestStatus.pending,
      none⟩, ?_, rfl, rfl, rfl, rfl, rfl⟩
    simp [createMembershipRequest, h1, h2]

/-- Witness for C5: a non-member with no pending request successfully
creates a PENDING request. -/
theorem C5_create_request_guards_witness :
    ∃ req, createMembershipRequest wdb5 ⟨9, false⟩ ⟨1, "C", "d"⟩ =
        .ok { wdb5 with requests := wdb5.requests ++ [req]
                        next_id := wdb5.next_id + 1 } ∧
      req.status = RequestStatus.pending ∧ req.closed = none ∧
      req.user = (9 : Nat) ∧ req.club = (1 : Nat) ∧
      req.initiated = wdb5.now :=
  (C5_create_request_guards wdb5 ⟨9, false⟩ ⟨1, "C", "d"⟩).2.2
    (by decide) (by decide)

/-- C10: updating a ClubMembership with a payload naming a different user
fails with the user validation error, and a payload naming a role of
another club fails with the role validation error; in both cases the
error result means the stored membership is untouched. -/
theorem C10_update_guards (db : DB) (m : ClubMembership)
    (payload_user : Nat) (payload_role : ClubRole) :
    (payload_user ≠ m.user →
      ClubMembershipViewSet.update db m payload_user payload_role =
        .error (ApiError.validationError "You can not update the User!")) ∧
    (∀ role club, payload_user = m.user →
      db.find_club_role m.club_role = some role →
      db.find_club role.club = some club →
      payload_role.club ≠ club.id →
      ClubMembershipViewSet.update db m payload_user payload_role =
        .error (ApiError.validationError
          "Invalid Club Role ID for this Club!")) := by
  constructor
  · intro h
    have hb : (m.user == payload_user) = false := by
      simp [beq_iff_eq]
      exact fun hx => h hx.symm
    simp [ClubMembershipViewSet.update, hb]
  · intro role club hu hrole hclub hne
    have hb : (m.user == payload_user) = true := by simp [beq_iff_eq, hu]
    simp [ClubMembershipViewSet.update, hb, hrole, hclub, Club.has_role,
      beq_iff_eq, hne]

/-- Witness for C10: a payload renaming the member to user 21 is
rejected. -/
theorem C10_update_guards_witness :
    ClubMembershipViewSet.update wdb10 ⟨3, 20, 2, 0⟩ 21
        ⟨2, "Rep", "r", 1, Privilege.rep⟩ =
      .error (ApiError.validationError "You can not update the User!") :=
  (C10_update_guards wdb10 ⟨3, 20, 2, 0⟩ 21
    ⟨2, "Rep", "r", 1, Privilege.rep⟩).1 (by decide)

/-- Saving a request changes no membership row. -/
theorem save_request_club_memberships (db : DB) (r : ClubMembershipRequest) :
    (db.save_request r).club_memberships = db.club_memberships := by
  unfold DB.save_request
  split <;> rfl

/-- Saving a request changes no role row. -/
theorem save_request_club_roles (db : DB) (r : ClubMembershipRequest) :
    (db.save_request r).club_roles = db.club_roles := by
  unfold DB.save_request
  split <;> rfl

/-- Saving a request leaves the saved row in the table. -/
theorem save_request_mem (db : DB) (r : ClubMembershipRequest) :
    r ∈ (db.save_request r).requests := by
  unfold DB.save_request
  split
  · next h =>
      rcases List.any_eq_true.mp h with ⟨x, hx, hxid⟩
      exact List.mem_map.mpr ⟨x, hx, by simp [hxid]⟩
  · simp

/-- Under at most one matching row, the role get-or-create succeeds and
returns a role with the requested fields, present in the resulting
database, touching no other table. -/
theorem getOrCreateClubRole_ok (db : DB) (name description : String)
    (clubId : Nat) (priv : Privilege)
    (h : (roleMatches db name description clubId priv).length ≤ 1) :
    ∃ ro db2,
      getOrCreateClubRole db name description clubId priv = .ok (ro, db2) ∧
      ro.club = clubId ∧ ro.privilege = priv ∧ ro.name = name ∧
      ro ∈ db2.club_roles ∧
      db2.club_memberships = db.club_memberships ∧
      db2.requests = db.requests ∧ db2.now = db.now := by
  rcases hm : roleMatches db name description clubId priv with
    _ | ⟨r1, _ | ⟨r2, rest⟩⟩
  · refine ⟨⟨db.next_id, name, description, clubId, priv⟩,
      { db with
          club_roles := db.club_roles ++
            [⟨db.next_id, name, description, clubId, priv⟩]
          next_id := db.next_id + 1 },
      ?_, rfl, rfl, rfl, ?_, rfl, rfl, rfl⟩
    · simp [getOrCreateClubRole, hm]
    · simp
  · have hr1 : r1 ∈ roleMatches db name description clubId priv := by
      rw [hm]; exact List.mem_singleton.mpr rfl
    rcases List.mem_filter.mp hr1 with ⟨hmem, hpred⟩
    simp only [Bool.and_eq_true, beq_iff_eq] at hpred
    exact ⟨r1, db, by simp [getOrCreateClubRole, hm], hpred.1.2,
      hpred.2, hpred.1.1.1, hmem, rfl, rfl, rfl⟩
  · rw [hm] at h
    simp at h

/-- Under at most one matching row, the membership get-or-create succeeds
and returns a membership with the requested fields, present in the
resulting database, touching no other table. -/
theorem getOrCreateMembership_ok (db : DB) (roleId userId : Nat)
    (h : (membershipMatches db roleId userId).length ≤ 1) :
    ∃ m db2, getOrCreateMembership db roleId userId = .ok (m, db2) ∧
      m.club_role = roleId ∧ m.user = userId ∧ m ∈ db2.club_memberships ∧
      db2.club_roles = db.club_roles ∧ db2.requests = db.requests ∧
      db2.now = db.now := by
  rcases hm : membershipMatches db roleId userId with
    _ | ⟨m1, _ | ⟨m2, rest⟩⟩
  · refine ⟨⟨db.next_id, userId, roleId, db.now⟩,
      { db with
          club_memberships := db.club_memberships ++
            [⟨db.next_id, userId, roleId, db.now⟩]
          next_id := db.next_id + 1 },
      ?_, rfl, rfl, ?_, rfl, rfl, rfl⟩
    · simp [getOrCreateMembership, hm]
    · simp
  · have hm1 : m1 ∈ membershipMatches db roleId userId := by
      rw [hm]; exact List.mem_singleton.mpr rfl
    rcases List.mem_filter.mp hm1 with ⟨hmem, hpred⟩
    simp only [Bool.and_eq_true, beq_iff_eq] at hpred
    exact ⟨m1, db, by simp [getOrCreateMembership, hm], hpred.1, hpred.2,
      hmem, rfl, rfl, rfl⟩
  · rw [hm] at h
    simp at h

/-- Under at most one matching role row and at most one matching
membership row per role, add_member succeeds and the resulting database
joins the user to a role of the club with the requested privilege, named
by its display name, all other tables untouched. -/
theorem add_member_ok (c : Club) (db : DB) (userId : Nat) (priv : Privilege)
    (hrole : (roleMatches db (privilegeDisplay priv)
        (privilegeDisplay priv ++ " of " ++ c.name) c.id priv).length ≤ 1)
    (hmem : ∀ ri, (membershipMatches db ri userId).length ≤ 1) :
    ∃ db2, c.add_member db userId priv = .ok db2 ∧
      (∃ ro m, ro ∈ db2.club_roles ∧ ro.club = c.id ∧ ro.privilege = priv ∧
        ro.name = privilegeDisplay priv ∧ m ∈ db2.club_memberships ∧
        m.user = userId ∧ m.club_role = ro.id) ∧
      db2.requests = db.requests ∧ db2.now = db.now := by
  obtain ⟨ro, db1, hok1, hclub, hpriv, hname, hro1, hmem1, hreq1, hnow1⟩ :=
    getOrCreateClubRole_ok db (privilegeDisplay priv)
      (privilegeDisplay priv ++ " of " ++ c.name) c.id priv hrole
  have hmm : (membershipMatches db1 ro.id userId).length ≤ 1 := by
    have heq : membershipMatches db1 ro.id userId =
        membershipMatches db ro.id userId := by
      unfold membershipMatches
      rw [hmem1]
    rw [heq]
    exact hmem ro.id
  obtain ⟨m, db2, hok2, hmrole, hmuser, hm2, hroles2, hreq2, hnow2⟩ :=
    getOrCreateMembership_ok db1 ro.id userId hmm
  refine ⟨db2, ?_, ⟨ro, m, ?_, hclub, hpriv, hname, hm2, hmuser, hmrole⟩,
    ?_, ?_⟩
  · simp [Club.add_member, hok1, hok2, bind, Except.bind, Functor.map,
      Except.map, Pure.pure, Except.pure]
  · rw [hroles2]
    exact hro1
  · rw [hreq2, hreq1]
  · rw [hnow2, hnow1]

/-- C1 (amended): accepting a pending request succeeds, stores the
request back with status ACCEPTED and a non-null closed timestamp, and
joins the requester to a MEMBER-privilege role of the club named by the
display name of the privilege, so that the club then has the requester as
a member.  The get-or-create hypotheses say that the database does not
already hold duplicate rows for the looked-up keys. -/
theorem C1_accept_pending (db : DB) (r : ClubMembershipRequest) (club : Club)
    (hp : r.status = RequestStatus.pending)
    (hc : db.find_club r.club = some club)
    (hrole : (roleMatches db (privilegeDisplay Privilege.mem)
        (privilegeDisplay Privilege.mem ++ " of " ++ club.name) club.id
        Privilege.mem).length ≤ 1)
    (hmem : ∀ ri, (membershipMatches db ri r.user).length ≤ 1) :
    ∃ db3, r.accept db = .ok db3 ∧
      { r with status := RequestStatus.accepted,
               closed := some db.now } ∈ db3.requests ∧
      club.has_member db3 r.user = true := by
  obtain ⟨db2, hok, ⟨ro, m, hroMem, hroClub, hroPriv, hroName, hmMem,
    hmUser, hmRole⟩, hreq, hnow⟩ :=
    add_member_ok club db r.user Privilege.mem hrole hmem
  have hpend : r.is_pending = true := by
    simp [ClubMembershipRequest.is_pending, hp]
  refine ⟨db2.save_request
    { r with status := RequestStatus.accepted, closed := some db.now },
    ?_, save_request_mem db2 _, ?_⟩
  · simp [ClubMembershipRequest.accept, hpend, hc, hok]
  · unfold Club.has_member
    rw [save_request_club_memberships, save_request_club_roles]
    refine List.any_eq_true.mpr ⟨m, hmMem, ?_⟩
    simp only [Bool.and_eq_true, beq_iff_eq]
    exact ⟨hmUser, List.any_eq_true.mpr ⟨ro, hroMem, by
      simp [beq_iff_eq, hmRole, hroClub]⟩⟩

/-- Witness for C1 on a concrete pending request. -/
theorem C1_accept_pending_witness :
    ∃ db3, wreq1.accept wdb1 = .ok db3 ∧
      { wreq1 with status := RequestStatus.accepted,
                   closed := some wdb1.now } ∈ db3.requests ∧
      Club.has_member ⟨1, "C", "d"⟩ db3 wreq1.user = true :=
  C1_accept_pending wdb1 wreq1 ⟨1, "C", "d"⟩ rfl (by decide) (by decide)
    (fun ri => by simp [membershipMatches, wdb1])

/-- Counterexample to C1 as stated: club 1 already has a MEMBER-privilege
role, so a get-or-create keyed on (club, privilege) would reuse it, but
accept creates a second MEMBER role because the source keys the
get-or-create on (name, description, club, privilege) as well. -/
theorem C1_role_keying_counterexample :
    (xdb1.club_roles.filter fun ro =>
        ro.club == 1 && ro.privilege == Privilege.mem).length = 1 ∧
    Except.map (fun d => d.club_roles.length) (xreq1.accept xdb1) =
      .ok 2 ∧
    Except.map (fun d => d.club_roles.length) (xreq1.accept_spec xdb1) =
      .ok 1 :=
  ⟨rfl, rfl, rfl⟩

/-- C9: when the standard MEMBER role of the club exists and the user is
already joined to it, add_member changes nothing at all. -/
theorem C9_add_member_idempotent (db : DB) (c : Club) (userId : Nat)
    (ro : ClubRole) (m : ClubMembership)
    (hro : roleMatches db (privilegeDisplay Privilege.mem)
        (privilegeDisplay Privilege.mem ++ " of " ++ c.name) c.id
        Privilege.mem = [ro])
    (hm : membershipMatches db ro.id userId = [m]) :
    c.add_member db userId = .ok db := by
  simp [Club.add_member, getOrCreateClubRole, getOrCreateMembership, hro,
    hm, bind, Except.bind, Functor.map, Except.map, Pure.pure, Except.pure]

/-- Witness for C9 on a concrete database where user 7 is already a
member of club 1 through the standard Member role. -/
theorem C9_add_member_idempotent_witness :
    Club.add_member ⟨1, "C", "d"⟩ wdb9 7 = .ok wdb9 :=
  C9_add_member_idempotent wdb9 ⟨1, "C", "d"⟩ 7
    ⟨2, "Member", "Member of C", 1, Privilege.mem⟩ ⟨3, 7, 2, 0⟩
    (by decide) (by decide)

/-- C7: when a reply for the feedback already exists, creating another
fails before insertion with the uniqueness validation error, and every
successful creation preserves the at-most-one-reply-per-feedback
invariant. -/
theorem C7_reply_unique (db : DB) (content : String) (p : Nat)
    (hinv : atMostOneReply db) :
    (feedbackIsReplied db p = true →
      createFeedbackReply db content p =
        .error (ApiError.validationError "This field must be unique.")) ∧
    ∀ db2, createFeedbackReply db content p = .ok db2 →
      atMostOneReply db2 := by
  constructor
  · intro h
    simp [createFeedbackReply, h]
  · intro db2 hok
    by_cases h : feedbackIsReplied db p = true
    · simp [createFeedbackReply, h] at hok
    · have h0 : feedbackIsReplied db p = false := by simpa using h
      simp [createFeedbackReply, h0] at hok
      intro q
      rw [← hok]
      simp only [List.filter_append]
      rcases eq_or_ne q p with hq | hq
      · subst hq
        have hnone : db.feedback_replies.filter
            (fun fr => fr.parent == q) = [] := by
          refine List.filter_eq_nil_iff.mpr (fun fr hfr hbad => ?_)
          have : feedbackIsReplied db q = true :=
            List.any_eq_true.mpr ⟨fr, hfr, hbad⟩
          rw [h0] at this
          exact Bool.false_ne_true this
        rw [hnone]
        simp
      · have hone : ([(⟨db.next_id, content, db.now, p⟩ : FeedbackReply)]
            |>.filter fun fr => fr.parent == q) = [] := by
          simp [Ne.symm hq]
        rw [hone, List.append_nil]
        exact hinv q


/-- Witness for C7: feedback 9 in wdb7 already has a reply, so a second
one is rejected. -/
theorem C7_reply_unique_witness :
    createFeedbackReply wdb7 "again" 9 =
      .error (ApiError.validationError "This field must be unique.") :=
  (C7_reply_unique wdb7 "again" 9
    (fun p => le_trans (List.length_filter_le _ _) (by decide))).1
    (by decide)

/-- C8: subscribing twice leaves exactly one subscription row for the
pair, unsubscribing always leaves zero rows and raises nothing, and
unsubscribing while not subscribed changes nothing at all.  The
hypothesis is the at-most-one-row invariant the get-or-create needs. -/
theorem C8_subscribe_unsubscribe (db : DB) (ch : Channel) (userId : Nat)
    (h : (subscriptionMatches db userId ch.id).length ≤ 1) :
    (∃ db1 db2, ch.subscribe db userId = .ok db1 ∧
      ch.subscribe db1 userId = .ok db2 ∧
      (subscriptionMatches db2 userId ch.id).length = 1) ∧
    (subscriptionMatches (ch.unsubscribe db userId) userId ch.id).length
      = 0 ∧
    ((subscriptionMatches db userId ch.id).length = 0 →
      ch.unsubscribe db userId = db) := by
  refine ⟨?_, ?_, ?_⟩
  · rcases hm : subscriptionMatches db userId ch.id with
      _ | ⟨s1, _ | ⟨s2, rest⟩⟩
    · have hsub1 : ch.subscribe db userId = .ok
          { db with
              subscriptions := db.subscriptions ++
                [⟨db.next_id, userId, ch.id, db.now⟩]
              next_id := db.next_id + 1 } := by
        simp [Channel.subscribe, hm]
      unfold subscriptionMatches at hm
      have hmatch1 : subscriptionMatches
          { db with
              subscriptions := db.subscriptions ++
                [⟨db.next_id, userId, ch.id, db.now⟩]
              next_id := db.next_id + 1 } userId ch.id =
          [⟨db.next_id, userId, ch.id, db.now⟩] := by
        unfold subscriptionMatches
        simp only [List.filter_append, hm]
        simp
      refine ⟨_, { db with
          subscriptions := db.subscriptions ++
            [⟨db.next_id, userId, ch.id, db.now⟩]
          next_id := db.next_id + 1 }, hsub1, ?_, ?_⟩
      · simp [Channel.subscribe, hmatch1]
      · rw [hmatch1]
        rfl
    · have hsub : ch.subscribe db userId = .ok db := by
        simp [Channel.subscribe, hm]
      refine ⟨db, db, hsub, hsub, ?_⟩
      rw [hm]
      rfl
    · rw [hm] at h
      simp at h
  · unfold subscriptionMatches Channel.unsubscribe
    simp [List.filter_filter]
  · intro h0
    have hnil : subscriptionMatches db userId ch.id = [] :=
      List.length_eq_zero.mp h0
    have hall := List.filter_eq_nil_iff.mp hnil
    unfold Channel.unsubscribe
    have hself : db.subscriptions.filter
        (fun s => !(s.user == userId && s.channel == ch.id)) =
        db.subscriptions :=
      List.filter_eq_self.mpr (fun a ha => by simp [hall a ha])
    rw [hself]

/-- Witness for C8 on a concrete channel with no subscribers. -/
theorem C8_subscribe_unsubscribe_witness :
    (∃ db1 db2, wch8.subscribe wdb8 7 = .ok db1 ∧
      wch8.subscribe db1 7 = .ok db2 ∧
      (subscriptionMatches db2 7 wch8.id).length = 1) ∧
    (subscriptionMatches (wch8.unsubscribe wdb8 7) 7 wch8.id).length = 0 ∧
    ((subscriptionMatches wdb8 7 wch8.id).length = 0 →
      wch8.unsubscribe wdb8 7 = wdb8) :=
  C8_subscribe_unsubscribe wdb8 wch8 7 (by decide)

/-- C6, failing input: caller 1 is not a representative of club 5 and
made no request, yet the listing returned for caller 1 with every
parameter unset contains the request user 2 made for club 5, because the
roles members id lookup of the filter uses the id__contains (LIKE)
semantics and the id of representative 11 contains the digit 1. -/
theorem C6_id_contains_leak :
    Club.has_rep ⟨5, "B", "d"⟩ wdb6 1 = false ∧
    (wdb6.requests.all fun r => !(r.user == 1)) = true ∧
    ClubMembershipRequestFilter.filter_queryset wdb6 ⟨1, false⟩
        wdb6.requests (-1) (-1) (-1) 0 =
      [⟨8, 2, 5, 3, RequestStatus.pending, none⟩] := by
  refine ⟨rfl, rfl, ?_⟩
  show orderByInitiated true [⟨8, 2, 5, 3, RequestStatus.pending, none⟩] =
    [⟨8, 2, 5, 3, RequestStatus.pending, none⟩]
  unfold orderByInitiated
  simp [List.mergeSort]

end Focus
